import Mathlib

/-!
Verification of the unified error-handling layer of the `ledb` embedded
document database (`src/ledb/src/error.rs`).

The layer consists of the `Error` enum with seven variants, its `Display`
implementation, an `Into<String>` implementation, a family of `From`
conversions from external failure types, and the `ResultWrap` adapter
trait that normalizes `Result<T, E>` into `Result<T, Error>`.

External failure types (`lmdb::error::Error`, `std::str::Utf8Error`,
`serde_cbor::error::Error`, `std::io::Error`, `ron::Error`,
`std::sync::PoisonError<E>`) are collaborators outside this crate; the
only contract the layer uses is that each is displayable.  They are
modelled here as opaque values carrying their rendered display string,
except `PoisonError`, which in addition carries the protected guard value
it wraps (its display, per the standard library, is a fixed description
that does not mention the guard).
-/

namespace Ledb

/-- Model of Rust's `Display` trait: a total rendering to a string. -/
class Display (α : Type) where
  fmt : α → String

/-- Rust's `Display for String` renders the string verbatim. -/
instance : Display String := ⟨fun s => s⟩

/-- Opaque model of the storage-engine failure type `lmdb::error::Error`
(aliased `DbError` in the source), exposed only through its display. -/
structure DbError where
  rendered : String
deriving DecidableEq

instance : Display DbError := ⟨DbError.rendered⟩

/-- Opaque model of the text-decoding failure type `std::str::Utf8Error`,
exposed only through its display. -/
structure Utf8Error where
  rendered : String
deriving DecidableEq

instance : Display Utf8Error := ⟨Utf8Error.rendered⟩

/-- Opaque model of the binary-codec failure type `serde_cbor::error::Error`
(aliased `CborError` in the source), exposed only through its display. -/
structure CborError where
  rendered : String
deriving DecidableEq

instance : Display CborError := ⟨CborError.rendered⟩

/-- Opaque model of the filesystem/stream failure type `std::io::Error`
(aliased `IoError` in the source), exposed only through its display. -/
structure IoError where
  rendered : String
deriving DecidableEq

instance : Display IoError := ⟨IoError.rendered⟩

/-- Opaque model of the configuration/dump-format failure type `ron::Error`
(aliased `RonError` in the source), exposed only through its display. -/
structure RonError where
  rendered : String
deriving DecidableEq

instance : Display RonError := ⟨RonError.rendered⟩

/-- Model of `std::sync::PoisonError<E>`: it wraps the guard value of type
`E` that was held when the poisoning occurred (recoverable in Rust via
`into_inner`). -/
structure PoisonError (E : Type) where
  guard : E
deriving DecidableEq

/-- The standard library's `Display for PoisonError<T>` writes the fixed
description `"poisoned lock: another task failed inside"`, independent of
the guard. -/
instance (E : Type) : Display (PoisonError E) :=
  ⟨fun _ => "poisoned lock: another task failed inside"⟩

/-- The unified database error type (`enum Error` in `error.rs`). -/
inductive Error where
  | DocError (s : String)
  | DbError (e : Ledb.DbError)
  | StrError (e : Ledb.Utf8Error)
  | DataError (e : Ledb.CborError)
  | StorageError (s : String)
  | IoError (e : Ledb.IoError)
  | SyncError (s : String)
deriving DecidableEq

/-- `impl Display for Error` (`error.rs` lines 25-38): each variant is
rendered as its fixed category label, a colon and a space, then the
payload's own rendering. -/
def Error.fmt : Error → String
  | .DocError s => "Document error: " ++ Display.fmt s
  | .DbError e => "Database error: " ++ Display.fmt e
  | .StrError e => "String error: " ++ Display.fmt e
  | .DataError e => "Data coding error: " ++ Display.fmt e
  | .StorageError s => "Storage error: " ++ Display.fmt s
  | .IoError e => "I/O Error: " ++ Display.fmt e
  | .SyncError s => "Sync error: " ++ Display.fmt s

instance : Display Error := ⟨Error.fmt⟩

/-- `impl Into<String> for Error` (`error.rs` lines 40-44):
`self.to_string()`, i.e. the display rendering. -/
def Error.into (e : Error) : String := Error.fmt e

/-- `impl From<CborError> for Error`: embeds the codec failure unmodified. -/
def Error.fromCborError (e : CborError) : Error := .DataError e

/-- `impl From<RonError> for Error`: stores `format!("\x7b\x7d", e)`, the
stringified rendering; the structured original is discarded. -/
def Error.fromRonError (e : RonError) : Error := .StorageError (Display.fmt e)

/-- `impl From<DbError> for Error`: embeds the engine failure unmodified. -/
def Error.fromDbError (e : Ledb.DbError) : Error := .DbError e

/-- `impl From<IoError> for Error`: embeds the I/O failure unmodified. -/
def Error.fromIoError (e : Ledb.IoError) : Error := .IoError e

/-- `impl<E> From<PoisonError<E>> for Error where PoisonError<E>: Display`:
stores `format!("\x7b\x7d", e)`, the stringified description of the
poisoning; generic over the protected value's type `E`. -/
def Error.fromPoisonError {E : Type} [Display (PoisonError E)]
    (e : PoisonError E) : Error :=
  .SyncError (Display.fmt e)

/-- `impl From<Utf8Error> for Error`: embeds the decode failure unmodified. -/
def Error.fromUtf8Error (e : Utf8Error) : Error := .StrError e

/-- `impl From<String> for Error`: the message becomes a `DocError`. -/
def Error.fromString (s : String) : Error := .DocError s

/-- `impl From<&str> for Error`: `Error::DocError(e.into())`; the slice's
text (modelled as a `String`) becomes the owned payload. -/
def Error.fromStr (s : String) : Error := .DocError s

/-- Model of the `Error: From<E>` bound used by `ResultWrap`: the statically
chosen conversion from an external failure type `E` into `Error`. -/
class ErrorFrom (E : Type) where
  convert : E → Error

instance : ErrorFrom CborError := ⟨Error.fromCborError⟩

instance : ErrorFrom RonError := ⟨Error.fromRonError⟩

instance : ErrorFrom Ledb.DbError := ⟨Error.fromDbError⟩

instance : ErrorFrom Ledb.IoError := ⟨Error.fromIoError⟩

instance (E : Type) [Display (PoisonError E)] : ErrorFrom (PoisonError E) :=
  ⟨Error.fromPoisonError⟩

instance : ErrorFrom Utf8Error := ⟨Error.fromUtf8Error⟩

instance : ErrorFrom String := ⟨Error.fromString⟩

/-- `ResultWrap::wrap_err` (`error.rs` lines 101-113):
`self.map_err(Error::from)`.  Rust's `Result<T, E>` is modelled as
`Except E T`. -/
def wrap_err {T E : Type} [ErrorFrom E] (r : Except E T) : Except Error T :=
  r.mapError ErrorFrom.convert

/-- A nonempty string followed by anything is nonempty. -/
theorem append_ne_empty (p s : String) (h : p.length ≠ 0) : p ++ s ≠ "" := by
  intro he
  apply h
  have hl := congrArg String.length he
  rw [String.length_append] at hl
  have h0 : ("" : String).length = 0 := rfl
  rw [h0] at hl
  omega

end Ledb

namespace Ledb

/-- Claim C1: for every `Error` value of each of the seven variants, the
display operation returns exactly `"<Category>: <payload>"` with the fixed
category per variant (`DocError` ↦ "Document error", `DbError` ↦ "Database
error", `StrError` ↦ "String error", `DataError` ↦ "Data coding error",
`StorageError` ↦ "Storage error", `IoError` ↦ "I/O Error", `SyncError` ↦
"Sync error") and the payload's own rendering (the message verbatim for
message payloads), including for empty-string payloads. -/
theorem display_format (s t u : String) (db : DbError) (se : Utf8Error)
    (ce : CborError) (ie : IoError) :
    (Error.DocError s).fmt = "Document error: " ++ s ∧
    (Error.DbError db).fmt = "Database error: " ++ Display.fmt db ∧
    (Error.StrError se).fmt = "String error: " ++ Display.fmt se ∧
    (Error.DataError ce).fmt = "Data coding error: " ++ Display.fmt ce ∧
    (Error.StorageError t).fmt = "Storage error: " ++ t ∧
    (Error.IoError ie).fmt = "I/O Error: " ++ Display.fmt ie ∧
    (Error.SyncError u).fmt = "Sync error: " ++ u :=
  ⟨rfl, rfl, rfl, rfl, rfl, rfl, rfl⟩

/-- Claim C2: the conversions from the storage-engine failure, binary-codec
failure, filesystem/stream failure and text-decoding failure are total and
deterministic (they are Lean functions) and yield respectively the
`DbError`, `DataError`, `IoError` and `StrError` variant with the original
failure value embedded unmodified as the payload. -/
theorem conversions_embed_unmodified (db : DbError) (ce : CborError)
    (ie : IoError) (se : Utf8Error) :
    Error.fromDbError db = .DbError db ∧
    Error.fromCborError ce = .DataError ce ∧
    Error.fromIoError ie = .IoError ie ∧
    Error.fromUtf8Error se = .StrError se :=
  ⟨rfl, rfl, rfl, rfl⟩

/-- Claim C3: `wrap_err` maps a success value to the same success value
unchanged (for every failure type with a conversion into `Error`), and
maps a failure value to a failure whose `Error` variant is given by the
mapping table for the failure's static type, for every listed external
failure type. -/
theorem wrap_err_spec {T : Type} (t : T) (db : DbError) (ce : CborError)
    (ie : IoError) (se : Utf8Error) (re : RonError) (s : String) :
    (∀ (E : Type) [ErrorFrom E],
      wrap_err (Except.ok t : Except E T) = Except.ok t) ∧
    wrap_err (Except.error db : Except DbError T)
      = Except.error (Error.DbError db) ∧
    wrap_err (Except.error ce : Except CborError T)
      = Except.error (Error.DataError ce) ∧
    wrap_err (Except.error ie : Except IoError T)
      = Except.error (Error.IoError ie) ∧
    wrap_err (Except.error se : Except Utf8Error T)
      = Except.error (Error.StrError se) ∧
    wrap_err (Except.error re : Except RonError T)
      = Except.error (Error.StorageError (Display.fmt re)) ∧
    (∀ (E : Type) [Display (PoisonError E)] (p : PoisonError E),
      wrap_err (Except.error p : Except (PoisonError E) T)
        = Except.error (Error.SyncError (Display.fmt p))) ∧
    wrap_err (Except.error s : Except String T)
      = Except.error (Error.DocError s) :=
  ⟨fun _ _ => rfl, rfl, rfl, rfl, rfl, rfl, fun _ _ _ => rfl, rfl⟩

/-- Counterexample to claim C4: the configuration/dump-format conversion is
not the only information-reducing conversion in the layer.  The
poisoned-mutex conversion also discards the structured original: two
distinct `PoisonError` values (different guards) convert to the identical
`Error` value, so the original cannot be recovered. -/
theorem poison_conversion_also_lossy :
    Error.fromPoisonError (PoisonError.mk (0 : Nat))
      = Error.fromPoisonError (PoisonError.mk 1) ∧
    PoisonError.mk (0 : Nat) ≠ PoisonError.mk 1 :=
  ⟨rfl, by decide⟩

/-- Claim C4 as amended: the configuration/dump-format conversion yields
`StorageError` with the stringified rendering of the original (the
structured original is discarded); the poisoned-mutex conversion likewise
keeps only the stringified description (and so also reduces information);
every other listed conversion embeds the original value unmodified as the
payload (and is in particular injective). -/
theorem lossy_conversions (re : RonError) :
    Error.fromRonError re = .StorageError (Display.fmt re) ∧
    (∀ (E : Type) [Display (PoisonError E)] (p : PoisonError E),
      Error.fromPoisonError p = .SyncError (Display.fmt p)) ∧
    Function.Injective Error.fromDbError ∧
    Function.Injective Error.fromCborError ∧
    Function.Injective Error.fromIoError ∧
    Function.Injective Error.fromUtf8Error ∧
    Function.Injective Error.fromString ∧
    Function.Injective Error.fromStr ∧
    ¬ Function.Injective (Error.fromPoisonError (E := Nat)) := by
  refine ⟨rfl, fun _ _ _ => rfl, ?_, ?_, ?_, ?_, ?_, ?_, ?_⟩
  · intro a b h
    simpa [Error.fromDbError] using h
  · intro a b h
    simpa [Error.fromCborError] using h
  · intro a b h
    simpa [Error.fromIoError] using h
  · intro a b h
    simpa [Error.fromUtf8Error] using h
  · intro a b h
    simpa [Error.fromString] using h
  · intro a b h
    simpa [Error.fromStr] using h
  · intro h
    have h01 : (PoisonError.mk (0 : Nat)) = PoisonError.mk 1 := h rfl
    exact absurd h01 (by decide)

/-- Claim C5: for every poisoned-mutex failure, over any protected-value
type whose poisoning failure is renderable, the conversion yields the
`SyncError` variant whose payload is the stringified description of the
poisoning. -/
theorem poison_to_sync_error (E : Type) [Display (PoisonError E)]
    (p : PoisonError E) :
    Error.fromPoisonError p = .SyncError (Display.fmt p) :=
  rfl

/-- Claim C6: converting a plain message into `Error`, whether given as an
owned string or as a text slice, yields `DocError` with exactly that text
as payload, and the two input forms produce identical `Error` values. -/
theorem message_to_doc_error (s : String) :
    Error.fromString s = .DocError s ∧
    Error.fromStr s = .DocError s ∧
    Error.fromStr s = Error.fromString s :=
  ⟨rfl, rfl, rfl⟩

/-- Claim C7: for every `Error` value, consuming it into a plain string
yields exactly its display rendering (no additional fields, no
truncation). -/
theorem into_eq_display (e : Error) : Error.into e = Error.fmt e :=
  rfl

/-- Claim C8: for every `Error` value, regardless of payload content
(including empty messages), display and conversion-to-string are total
functions — they are defined as total Lean functions, so they always
produce a value — and the rendered string is never empty. -/
theorem display_total_nonempty (e : Error) :
    Error.fmt e ≠ "" ∧ Error.into e ≠ "" := by
  have h : Error.fmt e ≠ "" := by
    cases e <;>
      exact append_ne_empty _ _ (by decide)
  exact ⟨h, h⟩

/-- Claim C9: converting each listed external failure value into `Error`
and then into a plain string yields the original value's own display
string prefixed by the fixed category label for the five opaque-payload
variants (`DbError`, `StrError`, `DataError`, `IoError`, `DocError`), and
yields the category label followed by the already-stringified message for
`StorageError` and `SyncError`. -/
theorem convert_then_stringify (db : DbError) (se : Utf8Error)
    (ce : CborError) (ie : IoError) (s : String) (re : RonError) :
    Error.into (Error.fromDbError db) = "Database error: " ++ Display.fmt db ∧
    Error.into (Error.fromUtf8Error se) = "String error: " ++ Display.fmt se ∧
    Error.into (Error.fromCborError ce)
      = "Data coding error: " ++ Display.fmt ce ∧
    Error.into (Error.fromIoError ie) = "I/O Error: " ++ Display.fmt ie ∧
    Error.into (Error.fromString s) = "Document error: " ++ Display.fmt s ∧
    Error.into (Error.fromRonError re)
      = "Storage error: " ++ Display.fmt re ∧
    (∀ (E : Type) [Display (PoisonError E)] (p : PoisonError E),
      Error.into (Error.fromPoisonError p)
        = "Sync error: " ++ Display.fmt p) :=
  ⟨rfl, rfl, rfl, rfl, rfl, rfl, fun _ _ _ => rfl⟩

/-- Claim C10: the poisoned-mutex conversion depends only on the rendered
description — for any two poison failures, possibly over different
protected-value types or contents, whose descriptions are equal, the
resulting `Error` values are identical. -/
theorem poison_conversion_forgets_guard {E F : Type}
    [Display (PoisonError E)] [Display (PoisonError F)]
    (p : PoisonError E) (q : PoisonError F)
    (h : Display.fmt p = Display.fmt q) :
    Error.fromPoisonError p = Error.fromPoisonError q :=
  congrArg Error.SyncError h

/-- Witness for C10: two poison failures over different protected types
(`Nat` and `Bool`) with equal descriptions convert to the same `Error`. -/
theorem poison_conversion_forgets_guard_witness :
    Display.fmt (PoisonError.mk (3 : Nat))
      = Display.fmt (PoisonError.mk true) ∧
    Error.fromPoisonError (PoisonError.mk (3 : Nat))
      = Error.fromPoisonError (PoisonError.mk true) :=
  ⟨rfl, poison_conversion_forgets_guard (PoisonError.mk (3 : Nat))
    (PoisonError.mk true) rfl⟩

end Ledb
